import Mathlib

/-!
Shallow embedding of the Flooreno invoice generator (src/invoice.py).

Monetary values are modelled as rationals (the Python source uses
floating point; the claims are algebraic identities between the very
expressions the source computes, so a rational model is faithful to
their content). Line items are (description, unit price, quantity)
tuples; quantities are naturals as Python quantity inputs have
min_value=1, step=1.

The PDF is modelled structurally: an `InvoiceDocument` records the
title, store-location line, client paragraph, item-table data (a list
of rows of cell strings) and the table style commands, following the
reportlab calls in `create_invoice_pdf` line by line.
-/

namespace Invoice

/-- A line item as held in `st.session_state.invoice_items`:
a `(name, price, quantity)` tuple. -/
structure LineItem where
  description : String
  price : ℚ
  quantity : ℕ
deriving DecidableEq

/-- `TAX_RATE = 0.13` (src/invoice.py line 10). -/
def TAX_RATE : ℚ := 13 / 100

/-- `calculate_totals` (src/invoice.py lines 110-115):
`subtotal = sum(price * quantity for _, price, quantity in items)`,
`tax = subtotal * TAX_RATE`, `total = subtotal + tax`.  Python's
`sum` is a left fold with initial value 0. -/
def calculate_totals (items : List LineItem) : ℚ × ℚ × ℚ :=
  let subtotal := items.foldl (fun acc it => acc + it.price * (it.quantity : ℚ)) 0
  let tax := subtotal * TAX_RATE
  let total := subtotal + tax
  (subtotal, tax, total)

/-- The pre-tax line value of one item. -/
def lineValue (it : LineItem) : ℚ := it.price * (it.quantity : ℚ)

lemma foldl_add_lineValue (items : List LineItem) (a : ℚ) :
    items.foldl (fun acc it => acc + it.price * (it.quantity : ℚ)) a
      = a + (items.map lineValue).sum := by
  induction items generalizing a with
  | nil => simp
  | cons hd tl ih =>
    simp only [List.foldl_cons, List.map_cons, List.sum_cons, ih, lineValue]
    ring

lemma calculate_totals_subtotal (items : List LineItem) :
    (calculate_totals items).1 = (items.map lineValue).sum := by
  simp [calculate_totals, foldl_add_lineValue]

/-! ### Number formatting

Python's `f"{x:.2f}"` renders a monetary value with exactly two digits
after the decimal point. We model it on rationals: round to the nearest
number of cents and print `<units>.<two digit cents>`. All monetary
values the program formats are nonnegative products and sums of
nonnegative inputs, so the tie- and sign-conventions of binary floats
never distinguish observable outputs here. -/

/-- The decimal digit character for `d < 10`. -/
def digitChar (d : ℕ) : Char := Char.ofNat (48 + d)

/-- Floor of a rational, written on `num`/`den` so that it evaluates. -/
def ratFloor (q : ℚ) : ℤ := q.num / (q.den : ℤ)

/-- Nearest number of cents to `q` monetary units. -/
def roundCents (q : ℚ) : ℤ := ratFloor (q * 100 + 1 / 2)

/-- Model of `f"{x:.2f}"`: two digits after the decimal point. -/
def fmt2 (q : ℚ) : String :=
  let c : ℤ := roundCents q
  let sign := if c < 0 then "-" else ""
  let n := c.natAbs
  sign ++ toString (n / 100) ++ "." ++
    String.mk [digitChar (n % 100 / 10), digitChar (n % 10)]

/-- Model of `f"{TAX_RATE*100:.0f}"`, used in the tax row label:
round to the nearest whole number and print it. -/
def fmt0 (q : ℚ) : String := toString (ratFloor (q + 1 / 2)).natAbs

/-! ### The item table (src/invoice.py lines 47-74)

A cell is modelled by the text content handed to reportlab (either a
`Paragraph` markup string or the raw `""` filler of the summary rows);
a row is the list of its five cells. -/

/-- Header row of the items table (lines 47-53). -/
def headerRow : List String :=
  ["<b>Item Description</b>", "<b>Unit Price</b>", "<b>Qty</b>",
   "<b>SubTotal</b>", "<b>Total</b>"]

/-- One item row (lines 56-66): wrapped description, unit price to two
decimals, integer quantity, pre-tax line total `price * quantity`, and
post-tax line total `(price * quantity) * (1 + TAX_RATE)`. -/
def itemRow (it : LineItem) : List String :=
  let line_total_pre_tax := it.price * (it.quantity : ℚ)
  let line_total_post_tax := line_total_pre_tax * (1 + TAX_RATE)
  [it.description, fmt2 it.price, toString it.quantity,
   fmt2 line_total_pre_tax, fmt2 line_total_post_tax]

/-- The three summary rows appended after the items (lines 69-71). -/
def summaryRows (subtotal tax total : ℚ) : List (List String) :=
  [["", "", "", "Subtotal", fmt2 subtotal],
   ["", "", "", "Tax (" ++ fmt0 (TAX_RATE * 100) ++ "%)", fmt2 tax],
   ["", "", "", "<b>TOTAL</b>", "<b>" ++ fmt2 total ++ "</b>"]]

/-- The full `data` list built for the `Table` call: header, one row
per item in input order, then the three summary rows. -/
def invoiceTableData (items : List LineItem) (subtotal tax total : ℚ) :
    List (List String) :=
  headerRow :: (items.map itemRow ++ summaryRows subtotal tax total)

/-! ### Table style commands (src/invoice.py lines 76-99)

ReportLab `TableStyle` commands address cells by `(col, row)` pairs in
which negative indices count from the end, exactly like Python list
indexing. -/

/-- One `TableStyle` command: its kind, start `(col, row)`, stop
`(col, row)`, and the remaining argument (font name or colour). -/
structure TCmd where
  kind : String
  c0 : Int
  r0 : Int
  c1 : Int
  r1 : Int
  arg : String
deriving DecidableEq

/-- Resolve a possibly negative reportlab index against a size `n`. -/
def resolveIdx (n : ℕ) (i : Int) : Int := if i < 0 then (n : Int) + i else i

/-- The command applies to cell `(c, r)` of a table with `numCols`
columns and `numRows` rows. -/
def coversCell (cmd : TCmd) (numCols numRows c r : ℕ) : Prop :=
  resolveIdx numCols cmd.c0 ≤ (c : Int) ∧ (c : Int) ≤ resolveIdx numCols cmd.c1 ∧
  resolveIdx numRows cmd.r0 ≤ (r : Int) ∧ (r : Int) ≤ resolveIdx numRows cmd.r1

instance (cmd : TCmd) (numCols numRows c r : ℕ) :
    Decidable (coversCell cmd numCols numRows c r) := by
  unfold coversCell; infer_instance

/-- The style list passed to `table.setStyle` (lines 79-99), with
`grid_end_row = item_count` as set on lines 76-77. -/
def tableStyle (item_count : ℕ) : List TCmd :=
  let grid_end_row : Int := item_count
  [⟨"FONTSIZE", 0, 0, -1, -1, "8"⟩,
   ⟨"BACKGROUND", 0, 0, -1, 0, "lightgrey"⟩,
   ⟨"TEXTCOLOR", 0, 0, -1, 0, "whitesmoke"⟩,
   ⟨"FONTNAME", 0, 0, -1, 0, "Helvetica-Bold"⟩,
   ⟨"ALIGN", 1, 1, -1, -1, "RIGHT"⟩,
   ⟨"VALIGN", 0, 0, -1, -1, "TOP"⟩,
   ⟨"INNERGRID", 0, 0, -1, grid_end_row, "black"⟩,
   ⟨"BOX", 0, 0, -1, grid_end_row, "black"⟩,
   ⟨"SPAN", 0, -3, 2, -3, ""⟩,
   ⟨"SPAN", 0, -2, 2, -2, ""⟩,
   ⟨"SPAN", 0, -1, 2, -1, ""⟩,
   ⟨"LINEABOVE", 3, -3, 4, -3, "black"⟩,
   ⟨"FONTNAME", 3, -1, 4, -1, "Helvetica-Bold"⟩,
   ⟨"BACKGROUND", 3, -1, 4, -1, "lightgrey"⟩]

/-! ### Timestamps

`datetime.datetime.now()` is modelled by an explicit clock value
passed to the renderer and to the download-name builder. -/

/-- A wall-clock reading, as used by `strftime`. -/
structure DateTime where
  year : ℕ
  month : ℕ
  day : ℕ
  hour : ℕ
  minute : ℕ
  second : ℕ
deriving DecidableEq

/-- Zero-pad to two digits, as `%m`, `%d`, `%H`, `%M`, `%S` do. -/
def pad2 (n : ℕ) : String := if n < 10 then "0" ++ toString n else toString n

/-- `strftime("%Y-%m-%d %H:%M:%S")` (line 30). -/
def strftimeDisplay (t : DateTime) : String :=
  toString t.year ++ "-" ++ pad2 t.month ++ "-" ++ pad2 t.day ++ " " ++
    pad2 t.hour ++ ":" ++ pad2 t.minute ++ ":" ++ pad2 t.second

/-- `strftime("%Y%m%d_%H%M%S")` (line 357). -/
def strftimeCompact (t : DateTime) : String :=
  toString t.year ++ pad2 t.month ++ pad2 t.day ++ "_" ++
    pad2 t.hour ++ pad2 t.minute ++ pad2 t.second

/-! ### The client paragraph and the assembled document -/

/-- The first four lines of the client/transaction paragraph
(lines 27-32), without the cash suffix. -/
def clientBase (client_name phone : String) (now : DateTime)
    (payment_type : String) : String :=
  "<b>Customer Name:</b> " ++ client_name ++ "<br/>" ++
  "<b>Phone Number:</b> " ++ phone ++ "<br/>" ++
  "<b>Date:</b> " ++ strftimeDisplay now ++ "<br/>" ++
  "<b>Payment Type:</b> " ++ payment_type ++ "<br/>"

/-- The cash suffix appended on line 34. -/
def cashSuffix (cash_given change : ℚ) : String :=
  "<b>Cash Given:</b> $" ++ fmt2 cash_given ++ "<br/>" ++
  "<b>Change:</b> $" ++ fmt2 change ++ "<br/>"

/-- The client/transaction paragraph (lines 27-36): the cash suffix is
appended exactly when `payment_type == "Cash" and cash_given is not
None and change is not None` (line 33). -/
def clientInfoText (client_name phone : String) (now : DateTime)
    (payment_type : String) (cash_given change : Option ℚ) : String :=
  let base := clientBase client_name phone now payment_type
  match cash_given, change with
  | some cg, some ch =>
      if payment_type = "Cash" then base ++ cashSuffix cg ch else base
  | _, _ => base

/-- The structural content of the generated PDF: title block, store
location line, client paragraph, the item table (data and style), and
the closing footer line, in the fixed order the source appends them. -/
structure InvoiceDocument where
  title : String
  storeLocation : String
  clientInfo : String
  tableData : List (List String)
  tableStyleCmds : List TCmd
  footer : String
deriving DecidableEq

/-- `create_invoice_pdf` (lines 13-107), with the `datetime.now()`
call modelled by the explicit `now` argument captured at call time. -/
def create_invoice_pdf (client_name phone : String) (items : List LineItem)
    (payment_type : String) (subtotal tax total : ℚ) (location : String)
    (cash_given change : Option ℚ) (now : DateTime) : InvoiceDocument :=
  { title := "<b>Flooreno Store Invoice</b>"
    storeLocation := "<b>Store Location:</b> " ++ location
    clientInfo := clientInfoText client_name phone now payment_type cash_given change
    tableData := invoiceTableData items subtotal tax total
    tableStyleCmds := tableStyle items.length
    footer := "Thank you for shopping at Flooreno!" }

/-! ### Module-level flow (src/invoice.py lines 293-365)

The Streamlit shell computes totals, derives `cash_given`/`change`,
validates, and either builds the PDF and offers a download name or
shows a disabled button. -/

/-- Lines 299-309: `cash_given` is the cash input when the payment
type is Cash, otherwise it stays `None`. -/
def appCashGiven (payment_type : String) (cash_input : ℚ) : Option ℚ :=
  if payment_type = "Cash" then some cash_input else none

/-- Lines 299-313: `change` is set only inside the Cash branch, and
only when `total > 0` and `cash_given >= total`. -/
def appChange (payment_type : String) (cash_input : ℚ) (total : ℚ) : Option ℚ :=
  if payment_type = "Cash" ∧ 0 < total ∧ total ≤ cash_input
  then some (cash_input - total) else none

/-- Lines 317-328: `can_generate_pdf` starts `True` and is cleared by
the required-fields check and by the cash-sufficiency check. -/
def can_generate_pdf (client_name phone : String) (items : List LineItem)
    (payment_type : String) (cash_given : Option ℚ) (total : ℚ) : Bool :=
  let v1 : Bool := !(client_name == "" || phone == "" || items.isEmpty)
  let v2 : Bool := !(payment_type == "Cash" && decide (0 < total) &&
    (match cash_given with
     | none => true
     | some cg => decide (cg < total)))
  v1 && v2

/-- Lines 318-331: the accumulated validation error messages; the
second entry is the insufficient-funds condition of lines 326-328. -/
def error_messages (client_name phone : String) (items : List LineItem)
    (payment_type : String) (cash_given : Option ℚ) (total : ℚ) : List String :=
  (if client_name == "" || phone == "" || items.isEmpty
   then ["Client Name, Phone, and at least one item are required."] else []) ++
  (if payment_type == "Cash" && decide (0 < total) &&
      (match cash_given with
       | none => true
       | some cg => decide (cg < total))
   then ["Insufficient cash provided for the total amount."] else [])

/-- Line 357: the suggested download file name, with every space of
the client name replaced by an underscore (Python
`client_name.replace(' ', '_')` on a one-character pattern). -/
def replaceSpaceChars : List Char → List Char
  | [] => []
  | c :: cs => (if c = ' ' then '_' else c) :: replaceSpaceChars cs

/-- The `file_name` argument of `st.download_button` (line 357). -/
def downloadFileName (client_name phone : String) (now : DateTime) : String :=
  "Invoice_" ++ String.mk (replaceSpaceChars client_name.data) ++ "_" ++
    phone ++ "_" ++ strftimeCompact now ++ ".pdf"

/-- Lines 335-365: when validation passes the PDF buffer is built with
the computed totals and the derived cash fields; otherwise generation
is not attempted. -/
def appGenerate (client_name phone : String) (items : List LineItem)
    (payment_type : String) (cash_input : ℚ) (location : String)
    (now : DateTime) : Option InvoiceDocument :=
  let t := calculate_totals items
  let cash_given := appCashGiven payment_type cash_input
  let change := appChange payment_type cash_input t.2.2
  if can_generate_pdf client_name phone items payment_type cash_given t.2.2
  then some (create_invoice_pdf client_name phone items payment_type
        t.1 t.2.1 t.2.2 location cash_given change now)
  else none

/-! ### Helper lemmas on formatting -/

lemma fmt2_eq (q : ℚ) (c : ℤ) (h : roundCents q = c) :
    fmt2 q = (if c < 0 then "-" else "") ++ toString (c.natAbs / 100) ++ "." ++
      String.mk [digitChar (c.natAbs % 100 / 10), digitChar (c.natAbs % 10)] := by
  simp only [fmt2, h]

lemma digitChar_isDigit {d : ℕ} (h : d < 10) : (digitChar d).isDigit := by
  interval_cases d <;> decide

/-- A string that ends in a decimal point followed by exactly two
digit characters (the shape produced by a `%.2f` format). -/
def twoDecimalDigits (s : String) : Prop :=
  ∃ u : String, ∃ a b : Char, s = u ++ "." ++ String.mk [a, b] ∧ a.isDigit ∧ b.isDigit

lemma fmt2_twoDecimalDigits (q : ℚ) : twoDecimalDigits (fmt2 q) := by
  refine ⟨(if roundCents q < 0 then "-" else "") ++ toString ((roundCents q).natAbs / 100),
    digitChar ((roundCents q).natAbs % 100 / 10), digitChar ((roundCents q).natAbs % 10),
    ?_, digitChar_isDigit (by omega), digitChar_isDigit (by omega)⟩
  simp [fmt2, String.append_assoc]

/-! ## Claims -/

/-- C1: for every list of line items (including the empty list),
`calculate_totals` returns `(subtotal, tax, total)` with `subtotal`
the sum over items of `unitPrice * quantity`, `tax = subtotal * 0.13`
and `total = subtotal + tax`; for the empty list all three values are
zero, and the function is total (a Lean `def`) with no error
conditions. -/
theorem calculate_totals_spec :
    (∀ items : List LineItem,
      calculate_totals items =
        ((items.map (fun it => it.price * (it.quantity : ℚ))).sum,
         (items.map (fun it => it.price * (it.quantity : ℚ))).sum * (13 / 100),
         (items.map (fun it => it.price * (it.quantity : ℚ))).sum
           + (items.map (fun it => it.price * (it.quantity : ℚ))).sum * (13 / 100)))
    ∧ calculate_totals [] = (0, 0, 0) := by
  constructor
  · intro items
    have hs : (calculate_totals items).1 = (items.map (fun it => it.price * (it.quantity : ℚ))).sum := by
      simpa [lineValue] using calculate_totals_subtotal items
    simp only [calculate_totals] at hs ⊢
    simp [hs, TAX_RATE]
  · simp [calculate_totals]

/-- C10: `calculate_totals` never reads item descriptions — any two
item lists that agree componentwise on `(price, quantity)` (so in
particular have equal length) yield identical totals triples. -/
theorem totals_ignore_descriptions (xs ys : List LineItem)
    (h : xs.map (fun it => (it.price, it.quantity))
       = ys.map (fun it => (it.price, it.quantity))) :
    calculate_totals xs = calculate_totals ys := by
  have key : ∀ l : List LineItem,
      l.foldl (fun acc it => acc + it.price * (it.quantity : ℚ)) 0
        = (l.map (fun it => (it.price, it.quantity))).foldl
            (fun acc p => acc + p.1 * (p.2 : ℚ)) 0 := by
    intro l
    rw [List.foldl_map]
  have hs : xs.foldl (fun acc it => acc + it.price * (it.quantity : ℚ)) 0
      = ys.foldl (fun acc it => acc + it.price * (it.quantity : ℚ)) 0 := by
    rw [key xs, key ys, h]
  simp [calculate_totals, hs]

/-- Witness for C10 at a concrete pair of lists differing only in
their descriptions. -/
theorem totals_ignore_descriptions_witness :
    calculate_totals [⟨"Oak Plank", 2, 3⟩] = calculate_totals [⟨"Nail Box", 2, 3⟩] :=
  totals_ignore_descriptions [⟨"Oak Plank", 2, 3⟩] [⟨"Nail Box", 2, 3⟩] rfl

/-- C2: row `i + 1` of the rendered table (the row of input item `i`)
shows the item description, the unit price, the quantity, a pre-tax
line total equal to `unitPrice * quantity` and a post-tax line total
equal to that value multiplied by `1.13 = 113/100`, the two line
totals formatted with exactly two decimal digits. -/
theorem item_rows_line_totals (items : List LineItem) (subtotal tax total : ℚ)
    (i : ℕ) (h : i < items.length) :
    (invoiceTableData items subtotal tax total)[i + 1]? =
      some [(items.get ⟨i, h⟩).description,
            fmt2 (items.get ⟨i, h⟩).price,
            toString (items.get ⟨i, h⟩).quantity,
            fmt2 ((items.get ⟨i, h⟩).price * ((items.get ⟨i, h⟩).quantity : ℚ)),
            fmt2 ((items.get ⟨i, h⟩).price * ((items.get ⟨i, h⟩).quantity : ℚ) * (113 / 100))]
    ∧ twoDecimalDigits (fmt2 ((items.get ⟨i, h⟩).price * ((items.get ⟨i, h⟩).quantity : ℚ)))
    ∧ twoDecimalDigits
        (fmt2 ((items.get ⟨i, h⟩).price * ((items.get ⟨i, h⟩).quantity : ℚ) * (113 / 100))) := by
  refine ⟨?_, fmt2_twoDecimalDigits _, fmt2_twoDecimalDigits _⟩
  have hm : i < (items.map itemRow).length := by simpa
  rw [invoiceTableData, List.getElem?_cons_succ, List.getElem?_append_left hm]
  have h113 : (1 : ℚ) + TAX_RATE = 113 / 100 := by norm_num [TAX_RATE]
  simp [List.getElem?_map, List.getElem?_eq_getElem h, itemRow, h113]

/-- Witness for C2: the single item `("Oak Plank", 12.50, 4)` renders
as the row `["Oak Plank", "12.50", "4", "50.00", "56.50"]`. -/
theorem item_rows_line_totals_witness :
    (invoiceTableData [⟨"Oak Plank", 25/2, 4⟩] 50 (13/2) (113/2))[1]? =
      some ["Oak Plank", "12.50", "4", "50.00", "56.50"] := by
  have h := (item_rows_line_totals [⟨"Oak Plank", 25/2, 4⟩] 50 (13/2) (113/2) 0 (by decide)).1
  rw [h]
  have e1 : fmt2 ((25 : ℚ)/2) = "12.50" := by
    rw [fmt2_eq _ 1250 (by norm_num [roundCents, ratFloor])]; rfl
  have e2 : fmt2 ((25 : ℚ)/2 * 4) = "50.00" := by
    rw [fmt2_eq _ 5000 (by norm_num [roundCents, ratFloor])]; rfl
  have e3 : fmt2 ((25 : ℚ)/2 * 4 * (113 / 100)) = "56.50" := by
    rw [fmt2_eq _ 5650 (by norm_num [roundCents, ratFloor])]; rfl
  simp [e1, e2, e3, show toString (4 : ℕ) = "4" from rfl]

/-- C3: the rendered table has exactly one row per item — its row
count is `items.length + 4` (header, one row per item, three summary
rows) — and is order-preserving: row `i + 1` is exactly `itemRow` of
input item `i`. -/
theorem table_one_row_per_item_in_order (items : List LineItem)
    (subtotal tax total : ℚ) :
    (invoiceTableData items subtotal tax total).length = items.length + 4
    ∧ ∀ i : ℕ, ∀ h : i < items.length,
        (invoiceTableData items subtotal tax total)[i + 1]? =
          some (itemRow (items.get ⟨i, h⟩)) := by
  constructor
  · simp [invoiceTableData, summaryRows]
  · intro i h
    have hm : i < (items.map itemRow).length := by simpa
    rw [invoiceTableData, List.getElem?_cons_succ, List.getElem?_append_left hm]
    simp [List.getElem?_map, List.getElem?_eq_getElem h]

/-- Witness for C3 at a concrete one-item list. -/
theorem table_one_row_per_item_in_order_witness :
    (invoiceTableData [⟨"Tile", 0, 5⟩] 0 0 0).length = 5
    ∧ (invoiceTableData [⟨"Tile", 0, 5⟩] 0 0 0)[1]? = some (itemRow ⟨"Tile", 0, 5⟩) := by
  have h := table_one_row_per_item_in_order [⟨"Tile", 0, 5⟩] 0 0 0
  exact ⟨h.1, h.2 0 (by decide)⟩

/-- The property C4 asserts, stated from the spec's words: every cell
of the table — header row, item rows and the three summary rows — is
covered by a `BOX` or `INNERGRID` style command. -/
def gridCoversWholeTable (item_count : ℕ) : Prop :=
  ∀ r < item_count + 4, ∀ c < 5,
    ∃ cmd ∈ tableStyle item_count, (cmd.kind = "BOX" ∨ cmd.kind = "INNERGRID") ∧
      coversCell cmd 5 (item_count + 4) c r

instance (n : ℕ) : Decidable (gridCoversWholeTable n) := by
  unfold gridCoversWholeTable; infer_instance

/-- C4 as stated is false: with one item, `grid_end_row = item_count`
stops the `BOX`/`INNERGRID` region at the item rows, so the three
summary rows are outside the bounded grid region. -/
theorem grid_excludes_summary_rows_cex :
    ¬ gridCoversWholeTable ([⟨"Oak Plank", 25/2, 4⟩] : List LineItem).length := by
  decide

/-- C4 amended: the `BOX` and `INNERGRID` commands cover exactly the
header row and the item rows — cell `(c, r)` of the table lies in the
ruled region iff `r ≤ items.length` — so the three summary rows lie
outside the outer border and interior grid. -/
theorem grid_region_extent (items : List LineItem) (c r : ℕ)
    (hc : c < 5) (hr : r < items.length + 4) :
    (∃ cmd ∈ tableStyle items.length,
        (cmd.kind = "BOX" ∨ cmd.kind = "INNERGRID") ∧
        coversCell cmd 5 (items.length + 4) c r) ↔ r ≤ items.length := by
  constructor
  · rintro ⟨cmd, hmem, hkind, hcov⟩
    simp only [tableStyle, List.mem_cons, List.not_mem_nil, or_false] at hmem
    rcases hmem with h|h|h|h|h|h|h|h|h|h|h|h|h|h <;> subst h <;>
      simp_all [coversCell, resolveIdx] <;> omega
  · intro hle
    refine ⟨⟨"BOX", 0, 0, -1, (items.length : Int), "black"⟩, ?_, Or.inl rfl, ?_⟩
    · simp [tableStyle]
    · simp [coversCell, resolveIdx]
      omega

/-- Witness for the amended C4: with one item, the header cell `(0,0)`
is ruled while the TOTAL-row cell `(0,4)` is not. -/
theorem grid_region_extent_witness :
    ((∃ cmd ∈ tableStyle ([⟨"Oak Plank", 25/2, 4⟩] : List LineItem).length,
        (cmd.kind = "BOX" ∨ cmd.kind = "INNERGRID") ∧
        coversCell cmd 5 (([⟨"Oak Plank", 25/2, 4⟩] : List LineItem).length + 4) 0 0)
      ↔ (0 : ℕ) ≤ ([⟨"Oak Plank", 25/2, 4⟩] : List LineItem).length)
    ∧ ((∃ cmd ∈ tableStyle ([⟨"Oak Plank", 25/2, 4⟩] : List LineItem).length,
        (cmd.kind = "BOX" ∨ cmd.kind = "INNERGRID") ∧
        coversCell cmd 5 (([⟨"Oak Plank", 25/2, 4⟩] : List LineItem).length + 4) 0 4)
      ↔ (4 : ℕ) ≤ ([⟨"Oak Plank", 25/2, 4⟩] : List LineItem).length) :=
  ⟨grid_region_extent [⟨"Oak Plank", 25/2, 4⟩] 0 0 (by decide) (by decide),
   grid_region_extent [⟨"Oak Plank", 25/2, 4⟩] 0 4 (by decide) (by decide)⟩

/-- The part of C5 that fails, stated from the spec's words: some
`LINEABOVE` style command applies to the TOTAL row (the last row,
index `item_count + 3`), drawing a rule line above it. -/
def totalRowHasLineAbove (item_count : ℕ) : Prop :=
  ∃ cmd ∈ tableStyle item_count, cmd.kind = "LINEABOVE" ∧
    coversCell cmd 5 (item_count + 4) 3 (item_count + 3)

instance (n : ℕ) : Decidable (totalRowHasLineAbove n) := by
  unfold totalRowHasLineAbove; infer_instance

/-- C5 as stated is false: with one item, the only `LINEABOVE`
command resolves to row 2 (the Subtotal row), so no rule line is
drawn above the TOTAL row (row 4). -/
theorem no_line_above_total_row_cex :
    ¬ totalRowHasLineAbove ([⟨"Oak Plank", 25/2, 4⟩] : List LineItem).length := by
  decide

/-- C5 amended: the three summary rows have blank first three cells
with label and value in the last two columns, and are merged across
columns 0-2 by the three `SPAN` commands (resolved rows
`items.length + 1 .. items.length + 3`); the TOTAL row (the last row,
resolved from index `-1`) is bold with a distinct `lightgrey`
background on its label/value cells; but the unique `LINEABOVE` rule
resolves to row `items.length + 1` — above the first summary row
(Subtotal), not above the TOTAL row. -/
theorem summary_rows_layout (items : List LineItem) (subtotal tax total : ℚ) :
    (invoiceTableData items subtotal tax total).drop (items.length + 1) =
      [["", "", "", "Subtotal", fmt2 subtotal],
       ["", "", "", "Tax (13%)", fmt2 tax],
       ["", "", "", "<b>TOTAL</b>", "<b>" ++ fmt2 total ++ "</b>"]]
    ∧ (⟨"SPAN", 0, -3, 2, -3, ""⟩ : TCmd) ∈ tableStyle items.length
    ∧ (⟨"SPAN", 0, -2, 2, -2, ""⟩ : TCmd) ∈ tableStyle items.length
    ∧ (⟨"SPAN", 0, -1, 2, -1, ""⟩ : TCmd) ∈ tableStyle items.length
    ∧ resolveIdx (items.length + 4) (-3) = (items.length : Int) + 1
    ∧ resolveIdx (items.length + 4) (-2) = (items.length : Int) + 2
    ∧ resolveIdx (items.length + 4) (-1) = (items.length : Int) + 3
    ∧ (⟨"FONTNAME", 3, -1, 4, -1, "Helvetica-Bold"⟩ : TCmd) ∈ tableStyle items.length
    ∧ (⟨"BACKGROUND", 3, -1, 4, -1, "lightgrey"⟩ : TCmd) ∈ tableStyle items.length
    ∧ (⟨"LINEABOVE", 3, -3, 4, -3, "black"⟩ : TCmd) ∈ tableStyle items.length
    ∧ (∀ cmd ∈ tableStyle items.length, cmd.kind = "LINEABOVE" →
        cmd = ⟨"LINEABOVE", 3, -3, 4, -3, "black"⟩) := by
  have hlabel : fmt0 (TAX_RATE * 100) = "13" := by
    have h : ratFloor (TAX_RATE * 100 + 1 / 2) = 13 := by
      norm_num [ratFloor, TAX_RATE]
    simp only [fmt0, h]
    rfl
  refine ⟨?_, ?_, ?_, ?_, ?_, ?_, ?_, ?_, ?_, ?_, ?_⟩
  · have hmap : items.length = (items.map itemRow).length := (List.length_map _ _).symm
    simp only [invoiceTableData, List.drop_succ_cons, hmap, List.drop_left]
    simp [summaryRows, hlabel]
  · simp [tableStyle]
  · simp [tableStyle]
  · simp [tableStyle]
  · simp [resolveIdx]; omega
  · simp [resolveIdx]; omega
  · simp [resolveIdx]; omega
  · simp [tableStyle]
  · simp [tableStyle]
  · simp [tableStyle]
  · intro cmd hmem hk
    simp only [tableStyle, List.mem_cons, List.not_mem_nil, or_false] at hmem
    rcases hmem with h|h|h|h|h|h|h|h|h|h|h|h|h|h <;> subst h <;> simp_all

/-- Witness for the amended C5 at a concrete one-item invoice. -/
theorem summary_rows_layout_witness :
    (invoiceTableData [⟨"Oak Plank", 25/2, 4⟩] 50 (13/2) (113/2)).drop 2 =
      [["", "", "", "Subtotal", "50.00"],
       ["", "", "", "Tax (13%)", "6.50"],
       ["", "", "", "<b>TOTAL</b>", "<b>56.50</b>"]] := by
  have h := (summary_rows_layout [⟨"Oak Plank", 25/2, 4⟩] 50 (13/2) (113/2)).1
  rw [show ((2:ℕ) = ([⟨"Oak Plank", 25/2, 4⟩] : List LineItem).length + 1) from rfl, h]
  have e1 : fmt2 (50 : ℚ) = "50.00" := by
    rw [fmt2_eq _ 5000 (by norm_num [roundCents, ratFloor])]; rfl
  have e2 : fmt2 ((13 : ℚ)/2) = "6.50" := by
    rw [fmt2_eq _ 650 (by norm_num [roundCents, ratFloor])]; rfl
  have e3 : fmt2 ((113 : ℚ)/2) = "56.50" := by
    rw [fmt2_eq _ 5650 (by norm_num [roundCents, ratFloor])]; rfl
  simp [e1, e2, e3]

/-- The client paragraph mentions the cash-given line. -/
def mentionsCashGiven (s : String) : Prop := "Cash Given".data <:+: s.data

instance (s : String) : Decidable (mentionsCashGiven s) := by
  unfold mentionsCashGiven; infer_instance

/-- C6 as stated is false: a Cash sale whose total is zero (a single
item priced 0.00) passes validation, the module-level flow leaves
`change = None`, and the rendered client block is exactly the base
paragraph — no cash-given or change line — although the payment
method is Cash. -/
theorem cash_lines_absent_for_cash_cex :
    (appGenerate "Ana" "555-0100" [⟨"Tile", 0, 5⟩] "Cash" 0 "NY"
        ⟨2025, 1, 2, 3, 4, 5⟩).map (fun d => d.clientInfo)
      = some (clientBase "Ana" "555-0100" ⟨2025, 1, 2, 3, 4, 5⟩ "Cash")
    ∧ ¬ mentionsCashGiven (clientBase "Ana" "555-0100" ⟨2025, 1, 2, 3, 4, 5⟩ "Cash") := by
  constructor
  · have htot : calculate_totals [⟨"Tile", 0, 5⟩] = (0, 0, 0) := by
      simp [calculate_totals]
    simp [appGenerate, htot, appCashGiven, appChange, can_generate_pdf,
      create_invoice_pdf, clientInfoText]
  · set_option maxRecDepth 8192 in decide

/-- C6 amended: the renderer appends the cash-given and change lines
(each value formatted with two decimal digits) exactly when the
payment type is Cash and both `cash_given` and `change` are non-None;
for any other payment type — in particular Debit and Credit — and
whenever either field is None (as happens in the app flow for a Cash
sale with zero total), the client block is the base paragraph without
those lines. -/
theorem cash_lines_condition (cn ph : String) (now : DateTime) (pt : String)
    (cg ch : Option ℚ) :
    (∀ g c : ℚ, cg = some g → ch = some c → pt = "Cash" →
        clientInfoText cn ph now pt cg ch = clientBase cn ph now pt ++ cashSuffix g c
          ∧ twoDecimalDigits (fmt2 g) ∧ twoDecimalDigits (fmt2 c))
    ∧ (pt ≠ "Cash" → clientInfoText cn ph now pt cg ch = clientBase cn ph now pt)
    ∧ (cg = none ∨ ch = none → clientInfoText cn ph now pt cg ch = clientBase cn ph now pt) := by
  refine ⟨?_, ?_, ?_⟩
  · rintro g c rfl rfl rfl
    exact ⟨by simp [clientInfoText], fmt2_twoDecimalDigits g, fmt2_twoDecimalDigits c⟩
  · intro hpt
    rcases cg with _|g <;> rcases ch with _|c <;> simp [clientInfoText, hpt]
  · rintro (rfl|rfl)
    · simp [clientInfoText]
    · rcases cg with _|g <;> simp [clientInfoText]

/-- Witness for the amended C6: a Cash render with cash given 20.00
and change 6.50 appends the cash suffix; a Debit render never does. -/
theorem cash_lines_condition_witness :
    clientInfoText "Ana" "555-0100" ⟨2025, 1, 2, 3, 4, 5⟩ "Cash" (some 20) (some (13/2))
      = clientBase "Ana" "555-0100" ⟨2025, 1, 2, 3, 4, 5⟩ "Cash" ++ cashSuffix 20 (13/2)
    ∧ clientInfoText "Ana" "555-0100" ⟨2025, 1, 2, 3, 4, 5⟩ "Debit" (some 20) (some (13/2))
      = clientBase "Ana" "555-0100" ⟨2025, 1, 2, 3, 4, 5⟩ "Debit" :=
  ⟨((cash_lines_condition "Ana" "555-0100" ⟨2025, 1, 2, 3, 4, 5⟩ "Cash"
      (some 20) (some (13/2))).1 20 (13/2) rfl rfl rfl).1,
   (cash_lines_condition "Ana" "555-0100" ⟨2025, 1, 2, 3, 4, 5⟩ "Debit"
      (some 20) (some (13/2))).2.1 (by decide)⟩

lemma can_generate_gate_iff (cn ph : String) (items : List LineItem) (pt : String)
    (ci : ℚ) (total : ℚ) :
    can_generate_pdf cn ph items pt (appCashGiven pt ci) total = true ↔
      (cn ≠ "" ∧ ph ≠ "" ∧ items ≠ [] ∧ (pt = "Cash" ∧ 0 < total → total ≤ ci)) := by
  by_cases h4 : pt = "Cash"
  · rcases lt_or_le ci total with h6 | h6
    · by_cases h1 : cn = "" <;> by_cases h2 : ph = "" <;> by_cases h3 : items = [] <;>
        by_cases h5 : (0:ℚ) < total <;>
        simp [can_generate_pdf, appCashGiven, h1, h2, h3, h4, h5, h6,
          not_le.mpr h6, List.isEmpty_iff]
    · by_cases h1 : cn = "" <;> by_cases h2 : ph = "" <;> by_cases h3 : items = [] <;>
        by_cases h5 : (0:ℚ) < total <;>
        simp [can_generate_pdf, appCashGiven, h1, h2, h3, h4, h5, h6,
          not_lt.mpr h6, List.isEmpty_iff]
  · by_cases h1 : cn = "" <;> by_cases h2 : ph = "" <;> by_cases h3 : items = [] <;>
      simp [can_generate_pdf, appCashGiven, h1, h2, h3, h4, List.isEmpty_iff]

/-- C7: generation is offered iff client name, phone and item list
are all non-empty and, when the payment method is Cash with a
positive total, the cash given covers the total; at the boundary, the
one-item invoice of total 100.00 with cash 100.00 is allowed with
change 0.00, while cash 99.99 yields the insufficient-funds message,
and generation is not attempted (`appGenerate` returns `none`). -/
theorem generation_gate :
    (∀ (cn ph : String) (items : List LineItem) (pt : String) (ci : ℚ)
        (loc : String) (now : DateTime),
      (appGenerate cn ph items pt ci loc now).isSome = true ↔
        (cn ≠ "" ∧ ph ≠ "" ∧ items ≠ [] ∧
          (pt = "Cash" ∧ 0 < (calculate_totals items).2.2 →
            (calculate_totals items).2.2 ≤ ci)))
    ∧ (calculate_totals [⟨"Flooring", 10000/113, 1⟩]).2.2 = 100
    ∧ (appGenerate "Ana" "555-0100" [⟨"Flooring", 10000/113, 1⟩] "Cash" 100 "NY"
        ⟨2025, 1, 2, 3, 4, 5⟩).isSome = true
    ∧ appChange "Cash" 100 (calculate_totals [⟨"Flooring", 10000/113, 1⟩]).2.2 = some 0
    ∧ appGenerate "Ana" "555-0100" [⟨"Flooring", 10000/113, 1⟩] "Cash" (9999/100) "NY"
        ⟨2025, 1, 2, 3, 4, 5⟩ = none
    ∧ error_messages "Ana" "555-0100" [⟨"Flooring", 10000/113, 1⟩] "Cash"
        (some (9999/100)) (calculate_totals [⟨"Flooring", 10000/113, 1⟩]).2.2
        = ["Insufficient cash provided for the total amount."] := by
  have hgate : ∀ (cn ph : String) (items : List LineItem) (pt : String) (ci : ℚ)
      (loc : String) (now : DateTime),
      (appGenerate cn ph items pt ci loc now).isSome = true ↔
        (cn ≠ "" ∧ ph ≠ "" ∧ items ≠ [] ∧
          (pt = "Cash" ∧ 0 < (calculate_totals items).2.2 →
            (calculate_totals items).2.2 ≤ ci)) := by
    intro cn ph items pt ci loc now
    rw [← can_generate_gate_iff cn ph items pt ci (calculate_totals items).2.2]
    simp only [appGenerate]
    by_cases hg : can_generate_pdf cn ph items pt (appCashGiven pt ci)
        (calculate_totals items).2.2 = true
    · simp [hg]
    · simp only [Bool.not_eq_true] at hg
      simp [hg]
  have htot : (calculate_totals [⟨"Flooring", 10000/113, 1⟩]).2.2 = 100 := by
    simp [calculate_totals, TAX_RATE]
    norm_num
  refine ⟨hgate, htot, ?_, ?_, ?_, ?_⟩
  · rw [hgate]
    refine ⟨by decide, by decide, by decide, ?_⟩
    rintro ⟨-, -⟩
    rw [htot]
  · rw [appChange, if_pos ⟨rfl, by rw [htot]; norm_num, by rw [htot]⟩, htot]
    norm_num
  · have hno : ¬ (appGenerate "Ana" "555-0100" [⟨"Flooring", 10000/113, 1⟩] "Cash"
        (9999/100) "NY" ⟨2025, 1, 2, 3, 4, 5⟩).isSome = true := by
      rw [hgate]
      rintro ⟨-, -, -, h⟩
      have hh := h ⟨rfl, by rw [htot]; norm_num⟩
      rw [htot] at hh
      norm_num at hh
    exact Option.not_isSome_iff_eq_none.mp hno
  · rw [htot]
    simp [error_messages, decide_eq_true (show (0:ℚ) < 100 by norm_num),
      decide_eq_true (show (9999:ℚ)/100 < 100 by norm_num)]

/-- Witness for C7: a Debit invoice with all fields present is
offered for generation. -/
theorem generation_gate_witness :
    (appGenerate "Ana" "555-0100" [⟨"Flooring", 10000/113, 1⟩] "Debit" 0 "NY"
        ⟨2025, 1, 2, 3, 4, 5⟩).isSome = true := by
  rw [generation_gate.1 "Ana" "555-0100" [⟨"Flooring", 10000/113, 1⟩] "Debit" 0 "NY"
    ⟨2025, 1, 2, 3, 4, 5⟩]
  refine ⟨by decide, by decide, by decide, ?_⟩
  rintro ⟨h, -⟩
  exact absurd h (by decide)

lemma replaceSpaceChars_eq_map : ∀ l : List Char,
    replaceSpaceChars l = l.map (fun c => if c = ' ' then '_' else c)
  | [] => rfl
  | c :: cs => by
    simp [replaceSpaceChars, replaceSpaceChars_eq_map cs]

/-- C8: the suggested download file name is
`Invoice_<clientName with every space turned into an underscore>_<phone>_<YYYYMMDD_HHMMSS>.pdf`,
where the timestamp is built from the clock value captured at
generation time. -/
theorem download_file_name_format (cn ph : String) (t : DateTime) :
    downloadFileName cn ph t =
      "Invoice_" ++ String.mk (cn.data.map (fun c => if c = ' ' then '_' else c))
        ++ "_" ++ ph ++ "_" ++
        (toString t.year ++ pad2 t.month ++ pad2 t.day ++ "_" ++
          pad2 t.hour ++ pad2 t.minute ++ pad2 t.second) ++ ".pdf" := by
  simp [downloadFileName, strftimeCompact, replaceSpaceChars_eq_map]

/-- C9: the renderer is deterministic in its explicit inputs plus the
clock — two calls on identical inputs agree on every document field
except possibly the client paragraph (which embeds the timestamp),
and with the same injected timestamp the documents are identical. -/
theorem renderer_deterministic (cn ph : String) (items : List LineItem)
    (pt : String) (st tx tt : ℚ) (loc : String) (cg ch : Option ℚ)
    (t1 t2 : DateTime) :
    (create_invoice_pdf cn ph items pt st tx tt loc cg ch t1).title
      = (create_invoice_pdf cn ph items pt st tx tt loc cg ch t2).title
    ∧ (create_invoice_pdf cn ph items pt st tx tt loc cg ch t1).storeLocation
      = (create_invoice_pdf cn ph items pt st tx tt loc cg ch t2).storeLocation
    ∧ (create_invoice_pdf cn ph items pt st tx tt loc cg ch t1).tableData
      = (create_invoice_pdf cn ph items pt st tx tt loc cg ch t2).tableData
    ∧ (create_invoice_pdf cn ph items pt st tx tt loc cg ch t1).tableStyleCmds
      = (create_invoice_pdf cn ph items pt st tx tt loc cg ch t2).tableStyleCmds
    ∧ (create_invoice_pdf cn ph items pt st tx tt loc cg ch t1).footer
      = (create_invoice_pdf cn ph items pt st tx tt loc cg ch t2).footer
    ∧ (t1 = t2 →
        create_invoice_pdf cn ph items pt st tx tt loc cg ch t1
          = create_invoice_pdf cn ph items pt st tx tt loc cg ch t2) := by
  refine ⟨rfl, rfl, rfl, rfl, rfl, ?_⟩
  rintro rfl
  rfl

/-- Witness for C9 at a fixed injected timestamp. -/
theorem renderer_deterministic_witness :
    create_invoice_pdf "Ana" "555-0100" [⟨"Tile", 0, 5⟩] "Debit" 0 0 0 "NY"
        none none ⟨2025, 1, 2, 3, 4, 5⟩
      = create_invoice_pdf "Ana" "555-0100" [⟨"Tile", 0, 5⟩] "Debit" 0 0 0 "NY"
        none none ⟨2025, 1, 2, 3, 4, 5⟩ :=
  (renderer_deterministic "Ana" "555-0100" [⟨"Tile", 0, 5⟩] "Debit" 0 0 0 "NY"
    none none ⟨2025, 1, 2, 3, 4, 5⟩ ⟨2025, 1, 2, 3, 4, 5⟩).2.2.2.2.2 rfl

end Invoice
